import Mathlib

/-!
Verification of the DataAnalyzer core: a shallow embedding of
`src/utils/data_processor.py` (class `DataProcessor`) and
`src/utils/visualizations.py` (class `Visualizer`), with theorems about the
fallback query dispatch, the live/fallback mode transition, loading,
summaries, and chart construction.

Conventions of the embedding: pandas cell values are `Option` values
(`none` models NaN / a missing cell); machine floats are modelled by exact
arithmetic (`ℚ` for data, `ℝ` for correlation entries, where pandas would
produce NaN the model's total division yields `0`); external effects
(spreadsheet parsing, the PandasAI service) are parameters of the
corresponding operations; a Python function that can raise is modelled with
`Except`/`Option` results.
-/

/-- A cell value of a loaded spreadsheet column: numeric or text. -/
inductive Val where
  | q (x : ℚ)
  | s (t : String)
deriving DecidableEq, Repr

/-- Column contents with their pandas dtype: a numeric (int64/float64)
column or a text (object) column; `none` entries model missing cells. -/
inductive ColData where
  | numeric (vals : List (Option ℚ))
  | text (vals : List (Option String))
deriving DecidableEq, Repr

/-- A named column of a Dataset. -/
structure Column where
  name : String
  data : ColData
deriving DecidableEq, Repr

/-- The in-memory table produced by `pd.read_excel`: an ordered list of
named, typed columns. -/
structure Dataset where
  cols : List Column
deriving DecidableEq, Repr

/-- Length of a column's data. -/
def colLen : ColData → ℕ
  | .numeric vs => vs.length
  | .text vs => vs.length

/-- Number of rows (`len(df)`): the length of the first column
(a DataFrame is rectangular; `0` for a table with no columns). -/
def nrows (df : Dataset) : ℕ :=
  match df.cols with
  | [] => 0
  | c :: _ => colLen c.data

/-- Rectangularity: every column has the common row count. -/
def Rect (df : Dataset) : Prop :=
  ∀ c ∈ df.cols, colLen c.data = nrows df

/-- `df.empty`: true when either axis has length zero. -/
def dsEmpty (df : Dataset) : Bool :=
  df.cols.isEmpty || nrows df == 0

/-- The cells of a column as a uniform list of optional values. -/
def cellsOf : ColData → List (Option Val)
  | .numeric vs => vs.map (fun o => o.map Val.q)
  | .text vs => vs.map (fun o => o.map Val.s)

/-- The numeric columns (`select_dtypes(include=['int64','float64'])`),
as name/data pairs, in column order. -/
def numCols (df : Dataset) : List (String × List (Option ℚ)) :=
  df.cols.filterMap fun c =>
    match c.data with
    | .numeric vs => some (c.name, vs)
    | .text _ => none

/-- Find a column by exact name. -/
def findCol (df : Dataset) (n : String) : Option Column :=
  df.cols.find? (fun c => c.name == n)

/-- Whether a column of the given name exists. -/
def hasColumn (df : Dataset) (n : String) : Bool :=
  df.cols.any (fun c => c.name == n)

/-- Lower-case a string character by character (Python `str.lower` on the
ASCII questions the dispatch table matches). -/
def lowerStr (t : String) : String :=
  ⟨t.data.map Char.toLower⟩

/-- Whether the first character list is an initial segment of the second. -/
def startsHere : List Char → List Char → Bool
  | [], _ => true
  | _ :: _, [] => false
  | a :: ps, b :: qs => a == b && startsHere ps qs

/-- Whether the pattern occurs somewhere in the character list. -/
def occursIn (p : List Char) : List Char → Bool
  | [] => startsHere p []
  | b :: qs => startsHere p (b :: qs) || occursIn p qs

/-- Python's substring test `pat in t`. -/
def hasSub (pat t : String) : Bool :=
  occursIn pat.data t.data

/-- Mean of a list of rationals (`0` for the empty list, where pandas
would produce NaN). -/
def meanQ (l : List ℚ) : ℚ := l.sum / (l.length : ℚ)

/-- Keep the present (non-NaN) values of a column. -/
def obsVals (vs : List (Option ℚ)) : List ℚ := vs.filterMap id

/-- Median of a list of rationals: middle of the sorted list, averaging the
two central values for even length (`0` for the empty list). -/
def medianQ (l : List ℚ) : ℚ :=
  let sorted := List.insertionSort (fun a b => a ≤ b) l
  let n := sorted.length
  if n = 0 then 0
  else if n % 2 = 1 then sorted.getD (n / 2) 0
  else (sorted.getD (n / 2 - 1) 0 + sorted.getD (n / 2) 0) / 2

/-- Remove duplicates keeping first occurrences (pandas `Series.unique`
order); `seen` accumulates the values already emitted. -/
def dedupFirst [DecidableEq α] : List α → List α → List α
  | _, [] => []
  | seen, a :: as =>
      if a ∈ seen then dedupFirst seen as else a :: dedupFirst (a :: seen) as

/-- `df.mean(numeric_only=True)`: per-column mean of the numeric columns,
missing cells skipped. -/
def numericMeans (df : Dataset) : List (String × ℚ) :=
  (numCols df).map (fun c => (c.1, meanQ (obsVals c.2)))

/-- `df.median(numeric_only=True)`: per-column median of the numeric
columns, missing cells skipped. -/
def numericMedians (df : Dataset) : List (String × ℚ) :=
  (numCols df).map (fun c => (c.1, medianQ (obsVals c.2)))

/-- `df.sum(numeric_only=True)`: per-column sum of the numeric columns,
missing cells skipped. -/
def numericSums (df : Dataset) : List (String × ℚ) :=
  (numCols df).map (fun c => (c.1, (obsVals c.2).sum))

/-- Descriptive statistics of one numeric column (the model records the
count of present values, mean, smallest and largest value). -/
structure DescStats where
  cnt : ℕ
  mean : ℚ
  lo : ℚ
  hi : ℚ
deriving DecidableEq, Repr

/-- Smallest element of a list (`0` for the empty list). -/
def minQ (l : List ℚ) : ℚ :=
  match List.insertionSort (fun a b => a ≤ b) l with
  | [] => 0
  | a :: _ => a

/-- Largest element of a list (`0` for the empty list). -/
def maxQ (l : List ℚ) : ℚ :=
  match (List.insertionSort (fun a b => a ≤ b) l).reverse with
  | [] => 0
  | a :: _ => a

/-- `df.describe()`: per numeric column descriptive statistics. -/
def describeStats (df : Dataset) : List (String × DescStats) :=
  (numCols df).map (fun c =>
    (c.1, ⟨(obsVals c.2).length, meanQ (obsVals c.2),
           minQ (obsVals c.2), maxQ (obsVals c.2)⟩))

/-- `df.head(n)`: the first `n` rows of every column. -/
def headCol (n : ℕ) : ColData → ColData
  | .numeric vs => .numeric (vs.take n)
  | .text vs => .text (vs.take n)

/-- `df.head(n)` on the whole table. -/
def headDs (n : ℕ) (df : Dataset) : Dataset :=
  ⟨df.cols.map (fun c => ⟨c.name, headCol n c.data⟩)⟩

/-- Total count of missing cells in one column. -/
def countNone : ColData → ℕ
  | .numeric vs => vs.countP (fun o => o.isNone)
  | .text vs => vs.countP (fun o => o.isNone)

/-- `df.isnull().sum().sum()`: total count of missing cells. -/
def missingCount (df : Dataset) : ℕ :=
  (df.cols.map (fun c => countNone c.data)).sum

/-- Pairwise-complete observations of two columns (`df.corr()` correlates
each pair over the rows where both values are present). -/
def pairObs : List (Option ℚ) → List (Option ℚ) → List (ℚ × ℚ)
  | some a :: xs, some b :: ys => (a, b) :: pairObs xs ys
  | _ :: xs, _ :: ys => pairObs xs ys
  | _, _ => []

/-- Centred cross-product sum of a list of pairs: with `ma`/`mb` the means
of the components, `Σ (a - ma) * (b - mb)`. -/
def covP (ps : List (ℚ × ℚ)) : ℚ :=
  let ma := meanQ (ps.map Prod.fst)
  let mb := meanQ (ps.map Prod.snd)
  (ps.map (fun p => (p.1 - ma) * (p.2 - mb))).sum

/-- Squared-deviation sum of a column over its present values. -/
def covDiag (vs : List (Option ℚ)) : ℚ :=
  covP ((obsVals vs).map (fun a => (a, a)))

/-- One Pearson correlation entry of `df.corr()`:
`Σ (a-ā)(b-b̄) / sqrt (Σ (a-ā)² * Σ (b-b̄)²)` over the pairwise-complete
observations (where pandas produces NaN — zero variance or no
observations — the model's total division yields `0`). -/
noncomputable def corrEntry (xs ys : List (Option ℚ)) : ℝ :=
  ((covP (pairObs xs ys) : ℚ) : ℝ) /
    Real.sqrt (((covP ((pairObs xs ys).map (fun p => (p.1, p.1))) : ℚ) : ℝ) *
               ((covP ((pairObs xs ys).map (fun p => (p.2, p.2))) : ℚ) : ℝ))

/-- `df.corr()`: the pairwise correlation matrix over the numeric columns,
in column order. -/
noncomputable def corrMatrix (df : Dataset) : List (List ℝ) :=
  (numCols df).map (fun a => (numCols df).map (fun b => corrEntry a.2 b.2))

/-- The axis labels of `df.corr()`: the numeric column names. -/
def corrLabels (df : Dataset) : List String :=
  (numCols df).map (fun c => c.1)

/-- Entry `(i, j)` of a matrix given as nested lists (`0` out of range). -/
noncomputable def entryAt (m : List (List ℝ)) (i j : ℕ) : ℝ :=
  (m[i]?.bind (fun row => row[j]?)).getD 0

/-- The discriminated result union a query produces: a per-column series,
a row count, descriptive statistics, a list of distinct values, a
correlation matrix, a table, or an error/plain message. -/
inductive QResult where
  | series (vals : List (String × ℚ))
  | cnt (n : ℕ)
  | described (stats : List (String × DescStats))
  | values (vs : List (Option Val))
  | matrix (z : List (List ℝ)) (labels : List String)
  | table (df : Dataset)
  | msg (m : String)

/-- The error message of the unreachable-looking `result is None` branch of
`process_query`'s fallback path. -/
def basicModeErr : String :=
  "Could not process query in basic mode. Try using simpler queries like \x27show average\x27 or \x27describe data\x27."

/-- `n = 5; for num in range(1, 21): if str(num) in query: n = num; break`:
the head-row count of the top/first branch, scanned over the decimal
strings of 1..20 in increasing order, default 5. -/
def scanTopN (query : String) : ℕ :=
  (((List.range' 1 20).find? (fun num => hasSub (toString num) query)).getD 5)

/-- The fallback branch of `DataProcessor.process_query`: the keyword
dispatch over the lower-cased question, first match wins; the returned
`Bool` is Python's success flag. -/
noncomputable def fallbackQuery (df : Dataset) (query0 : String) : Bool × QResult :=
  let query := lowerStr query0
  if hasSub "average" query || hasSub "mean" query then
    (true, .series (numericMeans df))
  else if hasSub "median" query then
    (true, .series (numericMedians df))
  else if hasSub "sum" query then
    (true, .series (numericSums df))
  else if hasSub "count" query then
    (true, .cnt (nrows df))
  else if hasSub "describe" query then
    (true, .described (describeStats df))
  else if hasSub "unique" query then
    match df.cols.find? (fun c => hasSub (lowerStr c.name) query) with
    | some c => (true, .values (dedupFirst [] (cellsOf c.data)))
    | none => (false, .msg basicModeErr)
  else if hasSub "correlation" query || hasSub "corr" query then
    (true, .matrix (corrMatrix df) (corrLabels df))
  else if hasSub "top" query || hasSub "first" query then
    (true, .table (headDs (scanTopN query) df))
  else
    (true, .table (headDs 5 df))

/-- The mutable state of a `DataProcessor`: the loaded Dataset (`self.df`),
the bound external-service dataframe handle (`self.smart_df`, an opaque
handle id), and the mode flag (`self.fallback_mode`). -/
structure EngineState where
  df : Option Dataset
  smart : Option ℕ
  fallback : Bool
deriving DecidableEq, Repr

/-- What one `process_query` call produced: Python's success flag, the
result value, the engine state afterwards, and whether the external query
service was invoked during the call. -/
structure PQRes where
  ok : Bool
  res : QResult
  next : EngineState
  usedService : Bool

/-- `DataProcessor.process_query`. `svc h q` is the outcome of
`self.smart_df.chat(q)` on handle `h` (`none` models a raised exception);
a failed live call sets `fallback_mode = True` and re-enters
`process_query` with the same question, exactly as the source recursion
does. A live attempt with no bound dataframe raises on the attribute
access, which the same `except` catches. -/
noncomputable def process_query (svc : ℕ → String → Option QResult)
    (s : EngineState) (q : String) : PQRes :=
  match s.df with
  | none => ⟨false, .msg "No data loaded. Please upload a file first.", s, false⟩
  | some df =>
    if s.fallback then
      let r := fallbackQuery df q
      ⟨r.1, r.2, s, false⟩
    else
      match s.smart with
      | some h =>
        match svc h q with
        | some res => ⟨true, res, s, true⟩
        | none =>
          let r := process_query svc { s with fallback := true } q
          ⟨r.ok, r.res, r.next, true⟩
      | none =>
        let r := process_query svc { s with fallback := true } q
        ⟨r.ok, r.res, r.next, false⟩
termination_by (if s.fallback then 0 else 1)
decreasing_by
  all_goals simp_all

/-- The result union of `DataProcessor.load_excel`: the loaded Dataset or
an error message. -/
inductive LoadRes where
  | data (df : Dataset)
  | msg (m : String)
deriving DecidableEq, Repr

/-- `DataProcessor.load_excel`. `parse` is the outcome of
`pd.read_excel(file)` (the external reader); `bind` is the outcome of
`SmartDataframe(df, ...)` (`none` models a raised exception). On a parse
error nothing is assigned; on success the Dataset is stored, and unless in
fallback mode the engine tries to bind it, flipping to fallback mode when
binding fails. -/
def load_excel (parse : Except String Dataset) (bind : Dataset → Option ℕ)
    (s : EngineState) : (Bool × LoadRes) × EngineState :=
  match parse with
  | .error e => ((false, .msg ("Error loading file: " ++ e)), s)
  | .ok df =>
    let s1 : EngineState := { s with df := some df }
    if s1.fallback then ((true, .data df), s1)
    else
      match bind df with
      | some h => ((true, .data df), { s1 with smart := some h })
      | none => ((true, .data df), { s1 with fallback := true })

/-- The pandas dtype tags of the model. -/
inductive DType where
  | numericT
  | textT
deriving DecidableEq, Repr

/-- The dtype of a column. -/
def dtypeOf : ColData → DType
  | .numeric _ => .numericT
  | .text _ => .textT

/-- The summary dictionary `DataProcessor.generate_summary` builds. -/
structure Summary where
  rows : ℕ
  columns : ℕ
  numeric_columns : ℕ
  missing_values : ℕ
  column_types : DType → ℕ

/-- `DataProcessor.generate_summary`: `None` when no Dataset is loaded,
otherwise the summary dictionary (the dict construction is total, so the
zeroed-summary `except` branch of the source is dead in the model). -/
def generate_summary (odf : Option Dataset) : Option Summary :=
  match odf with
  | none => none
  | some df =>
    some { rows := nrows df,
           columns := df.cols.length,
           numeric_columns := (numCols df).length,
           missing_values := missingCount df,
           column_types := fun t =>
             (df.cols.filter (fun c => dtypeOf c.data == t)).length }

/-- The four palettes `Visualizer.__init__` keeps: the single brand color
list `["#4B8BBE"]` and the external `plotly.express` palette constants
(qualitative Set3, sequential Viridis, diverging RdBu). -/
inductive Colors where
  | brand
  | set3
  | viridis
  | rdbu
deriving DecidableEq, Repr

/-- The `self.color_schemes` dictionary, in insertion order. -/
def color_schemes : List (String × Colors) :=
  [("default", .brand), ("categorical", .set3),
   ("sequential", .viridis), ("diverging", .rdbu)]

/-- `self.color_schemes.get(color_scheme, self.color_schemes['default'])`. -/
def schemeOf (scheme : String) : Colors :=
  (List.lookup scheme color_schemes).getD .brand

/-- The logical content of a constructed plotly figure: which mark, which
encoded columns, title, template and palette; a heatmap carries its matrix,
axis labels and colorscale instead. -/
inductive Mark where
  | bar (x y : Option String) (ti tmpl : String) (colors : Colors)
  | line (x y : Option String) (ti tmpl : String) (colors : Colors)
  | scatter (x y color : Option String) (ti tmpl : String) (colors : Colors)
  | histogram (x : Option String) (ti tmpl : String) (colors : Colors)
  | box (x y : Option String) (ti tmpl : String) (colors : Colors)
  | violin (x y : Option String) (ti tmpl : String) (colors : Colors)
  | pie (names values : Option String) (ti tmpl : String) (colors : Colors)
  | heatmap (z : List (List ℝ)) (xs ys : List Val) (colorscale ti : String)

/-- The layout styling `_apply_common_styling` installs. -/
structure StyleRec where
  plotBg : String
  paperBg : String
  fontFamily : String
  titleX : ℚ
  showLegend : Bool
  xGrid : Bool
  yGrid : Bool
  gridColor : String
deriving DecidableEq, Repr

/-- White backgrounds, Inter font, centred title, legend shown, light-gray
gridlines on both axes. -/
def commonStyles : StyleRec :=
  ⟨"white", "white", "Inter", 1 / 2, true, true, true, "#f0f0f0"⟩

/-- A figure: its mark plus the layout styling applied to it so far. -/
structure Fig where
  mark : Mark
  style : Option StyleRec

/-- `Visualizer._apply_common_styling`. -/
def _apply_common_styling (f : Fig) : Fig :=
  { f with style := some commonStyles }

/-- A `plotly.express` call raises on a column name absent from the
dataframe; a `None` column selection is accepted. -/
def checkCol (df : Dataset) : Option String → Except String Unit
  | none => .ok ()
  | some n => if hasColumn df n then .ok () else .error ("Unknown column: " ++ n)

/-- `Visualizer._create_bar_chart` (`px.bar`). -/
def _create_bar_chart (df : Dataset) (x y : Option String) (ti : String)
    (colors : Colors) : Except String Fig := do
  checkCol df x
  checkCol df y
  pure ⟨.bar x y ti "simple_white" colors, none⟩

/-- `Visualizer._create_line_chart` (`px.line`). -/
def _create_line_chart (df : Dataset) (x y : Option String) (ti : String)
    (colors : Colors) : Except String Fig := do
  checkCol df x
  checkCol df y
  pure ⟨.line x y ti "simple_white" colors, none⟩

/-- `Visualizer._create_scatter_plot` (`px.scatter`; the only helper that
receives the color column). -/
def _create_scatter_plot (df : Dataset) (x y color : Option String)
    (ti : String) (colors : Colors) : Except String Fig := do
  checkCol df x
  checkCol df y
  checkCol df color
  pure ⟨.scatter x y color ti "simple_white" colors, none⟩

/-- `Visualizer._create_histogram` (`px.histogram`). -/
def _create_histogram (df : Dataset) (x : Option String) (ti : String)
    (colors : Colors) : Except String Fig := do
  checkCol df x
  pure ⟨.histogram x ti "simple_white" colors, none⟩

/-- `Visualizer._create_box_plot` (`px.box`). -/
def _create_box_plot (df : Dataset) (x y : Option String) (ti : String)
    (colors : Colors) : Except String Fig := do
  checkCol df x
  checkCol df y
  pure ⟨.box x y ti "simple_white" colors, none⟩

/-- `Visualizer._create_violin_plot` (`px.violin`). -/
def _create_violin_plot (df : Dataset) (x y : Option String) (ti : String)
    (colors : Colors) : Except String Fig := do
  checkCol df x
  checkCol df y
  pure ⟨.violin x y ti "simple_white" colors, none⟩

/-- `Visualizer._create_pie_chart` (`px.pie`). Modelled from the spec:
`px.pie` raises when the names or the values column is missing, so a pie
request without both columns collapses to no figure. -/
def _create_pie_chart (df : Dataset) (names values : Option String)
    (ti : String) (colors : Colors) : Except String Fig := do
  match names, values with
  | some nc, some vc => do
    checkCol df (some nc)
    checkCol df (some vc)
    pure ⟨.pie (some nc) (some vc) ti "simple_white" colors, none⟩
  | _, _ => .error "px.pie requires names and values columns"

/-- The sorted distinct non-null keys `pd.pivot_table` groups by. -/
def pivotKeys (xcells : List (Option Val)) : List Val :=
  List.insertionSort
    (fun a b =>
      (match a, b with
       | .q x, .q y => decide (x ≤ y)
       | .s x, .s y => decide (x ≤ y)
       | .q _, .s _ => true
       | .s _, .q _ => false) = true)
    (dedupFirst [] (xcells.filterMap id))

/-- The values of the `values` column lying in the group of key `k`,
missing cells skipped. -/
def groupVals (xcells : List (Option Val)) (yvals : List (Option ℚ))
    (k : Val) : List ℚ :=
  (List.zip xcells yvals).filterMap (fun p =>
    match p with
    | (some kx, some v) => if kx = k then some v else none
    | _ => none)

/-- The `z` matrix of the pivot heatmap: one single-entry row per group
key, holding the group's mean of the values column. -/
noncomputable def pivotZ (xcells : List (Option Val))
    (yvals : List (Option ℚ)) : List (List ℝ) :=
  (pivotKeys xcells).map (fun k => [((meanQ (groupVals xcells yvals k) : ℚ) : ℝ)])

/-- `Visualizer._create_heatmap`: the full correlation matrix when either
column selection is missing (`title or 'Correlation Matrix'`), otherwise a
pivot table of `mean(y_column)` grouped by `x_column` (`pd.pivot_table`
raises on an unknown column name and on aggregating a non-numeric values
column). -/
noncomputable def _create_heatmap (df : Dataset) (x y : Option String)
    (ti : String) : Except String Fig :=
  match x, y with
  | some xc, some yc =>
    match findCol df xc, findCol df yc with
    | some cx, some cy =>
      match cy.data with
      | .numeric yv =>
        .ok ⟨.heatmap (pivotZ (cellsOf cx.data) yv) [Val.s yc]
               (pivotKeys (cellsOf cx.data)) "RdBu" ti, none⟩
      | .text _ => .error "pivot aggregation requires a numeric values column"
    | _, _ => .error "Unknown pivot column"
  | _, _ =>
    .ok ⟨.heatmap (corrMatrix df) ((corrLabels df).map Val.s)
           ((corrLabels df).map Val.s) "RdBu"
           (if ti = "" then "Correlation Matrix" else ti), none⟩

/-- The eight supported chart-type tags (`Visualizer.CHART_TYPES`). -/
def supportedChart (chart_type : String) : Bool :=
  chart_type == "bar" || chart_type == "line" || chart_type == "scatter" ||
  chart_type == "histogram" || chart_type == "box" || chart_type == "violin" ||
  chart_type == "pie" || chart_type == "heatmap"

/-- The `try` body of `Visualizer.create_visualization`: the chart-type
dispatch chain; `.ok none` is the `else: return None` arm for an
unsupported tag, `.error` a construction-time exception. -/
noncomputable def buildFig (df : Dataset) (chart_type : String)
    (x y color : Option String) (ti : String) (colors : Colors) :
    Except String (Option Fig) :=
  if chart_type == "bar" then (_create_bar_chart df x y ti colors).map some
  else if chart_type == "line" then (_create_line_chart df x y ti colors).map some
  else if chart_type == "scatter" then
    (_create_scatter_plot df x y color ti colors).map some
  else if chart_type == "histogram" then
    (_create_histogram df x ti colors).map some
  else if chart_type == "box" then (_create_box_plot df x y ti colors).map some
  else if chart_type == "violin" then
    (_create_violin_plot df x y ti colors).map some
  else if chart_type == "pie" then (_create_pie_chart df x y ti colors).map some
  else if chart_type == "heatmap" then (_create_heatmap df x y ti).map some
  else .ok none

/-- `Visualizer.create_visualization`: `None` for a missing or empty
dataframe; otherwise resolve the palette, dispatch, apply the common
styling, and collapse every construction-time exception (and the
unsupported-tag arm) to `None`. -/
noncomputable def create_visualization (odf : Option Dataset)
    (chart_type : String) (x y color : Option String) (ti : String)
    (scheme : String) : Option Fig :=
  match odf with
  | none => none
  | some df =>
    if dsEmpty df then none
    else
      match buildFig df chart_type x y color ti (schemeOf scheme) with
      | .error _ => none
      | .ok none => none
      | .ok (some f) => some (_apply_common_styling f)

/-- `Visualizer.get_numeric_columns`. -/
def get_numeric_columns (df : Dataset) : List String :=
  (numCols df).map (fun c => c.1)

/-- `Visualizer.get_categorical_columns`. -/
def get_categorical_columns (df : Dataset) : List String :=
  df.cols.filterMap fun c =>
    match c.data with
    | .text _ => some c.name
    | .numeric _ => none

/-- Unfolding `process_query` with no Dataset loaded. -/
lemma pq_no_df (svc : ℕ → String → Option QResult) (sm : Option ℕ) (fb : Bool) (q : String) :
    process_query svc ⟨none, sm, fb⟩ q =
      ⟨false, .msg "No data loaded. Please upload a file first.", ⟨none, sm, fb⟩, false⟩ := by
  unfold process_query
  rfl

/-- Unfolding `process_query` in fallback mode. -/
lemma pq_fallback (svc : ℕ → String → Option QResult) (df : Dataset) (sm : Option ℕ) (q : String) :
    process_query svc ⟨some df, sm, true⟩ q =
      ⟨(fallbackQuery df q).1, (fallbackQuery df q).2, ⟨some df, sm, true⟩, false⟩ := by
  unfold process_query
  rfl

/-- Unfolding `process_query` on a successful live call. -/
lemma pq_live_ok (svc : ℕ → String → Option QResult) (df : Dataset) (h0 : ℕ) (q : String)
    (res : QResult) (hsvc : svc h0 q = some res) :
    process_query svc ⟨some df, some h0, false⟩ q = ⟨true, res, ⟨some df, some h0, false⟩, true⟩ := by
  unfold process_query
  simp [hsvc]

/-- Unfolding `process_query` on a failed live call: flip to fallback and
retry the same question once. -/
lemma pq_live_fail (svc : ℕ → String → Option QResult) (df : Dataset) (h0 : ℕ) (q : String)
    (hsvc : svc h0 q = none) :
    process_query svc ⟨some df, some h0, false⟩ q =
      ⟨(fallbackQuery df q).1, (fallbackQuery df q).2, ⟨some df, some h0, true⟩, true⟩ := by
  unfold process_query
  simp only [hsvc]
  rw [pq_fallback svc df (some h0) q]
  simp

/-- Unfolding `process_query` in live mode with no bound dataframe: the
attribute access raises, the `except` flips to fallback and retries. -/
lemma pq_live_nosmart (svc : ℕ → String → Option QResult) (df : Dataset) (q : String) :
    process_query svc ⟨some df, none, false⟩ q =
      ⟨(fallbackQuery df q).1, (fallbackQuery df q).2, ⟨some df, none, true⟩, false⟩ := by
  unfold process_query
  rw [pq_fallback svc df none q]
  simp

/-- C1: in fallback mode on a loaded Dataset, the trigger tests run in the
fixed priority order against the lower-cased question, first match wins:
every question containing "average" or "mean" yields the per-column mean of
the numeric columns, whatever other trigger substrings also occur. -/
theorem mean_trigger_precedence :
    ∀ (svc : ℕ → String → Option QResult) (df : Dataset) (sm : Option ℕ) (q : String),
      hasSub "average" (lowerStr q) = true ∨ hasSub "mean" (lowerStr q) = true →
      process_query svc ⟨some df, sm, true⟩ q =
        ⟨true, .series (numericMeans df), ⟨some df, sm, true⟩, false⟩ := by
  intro svc df sm q h
  rw [pq_fallback]
  have hcond : (hasSub "average" (lowerStr q) || hasSub "mean" (lowerStr q)) = true := by
    rcases h with h | h <;> simp [h]
  simp [fallbackQuery, hcond]

theorem mean_trigger_precedence_witness :
    (hasSub "average" (lowerStr "Average of top 10") = true ∨
       hasSub "mean" (lowerStr "Average of top 10") = true) ∧
    process_query (fun _ _ => none) ⟨some ⟨[⟨"a", .numeric [some 1, some 2]⟩]⟩, none, true⟩
        "Average of top 10" =
      ⟨true, .series (numericMeans ⟨[⟨"a", .numeric [some 1, some 2]⟩]⟩),
       ⟨some ⟨[⟨"a", .numeric [some 1, some 2]⟩]⟩, none, true⟩, false⟩ :=
  ⟨Or.inl (by decide),
   mean_trigger_precedence (fun _ _ => none) ⟨[⟨"a", .numeric [some 1, some 2]⟩]⟩ none
     "Average of top 10" (Or.inl (by decide))⟩

/-- None of the triggers that precede top/first in the dispatch order
occurs in the (already lower-cased) question. -/
def noHigherTrigger (query : String) : Prop :=
  hasSub "average" query = false ∧ hasSub "mean" query = false ∧
  hasSub "median" query = false ∧ hasSub "sum" query = false ∧
  hasSub "count" query = false ∧ hasSub "describe" query = false ∧
  hasSub "unique" query = false ∧ hasSub "correlation" query = false ∧
  hasSub "corr" query = false

instance (q : String) : Decidable (noHigherTrigger q) := by
  unfold noHigherTrigger
  infer_instance

/-- C2: in fallback mode, a question containing "top" or "first" that
matches no higher-priority trigger returns the first N rows, N being the
first of 1, 2, ..., 20 whose decimal string occurs in the lower-cased
question (default 5); in particular "top 3" yields 3 rows and "top 25"
yields 2 rows (the scan meets "2" first), and "first rows" the default 5. -/
theorem top_first_digit_scan :
    (∀ (svc : ℕ → String → Option QResult) (df : Dataset) (sm : Option ℕ) (q : String),
      noHigherTrigger (lowerStr q) →
      (hasSub "top" (lowerStr q) = true ∨ hasSub "first" (lowerStr q) = true) →
      process_query svc ⟨some df, sm, true⟩ q =
        ⟨true, .table (headDs (scanTopN (lowerStr q)) df), ⟨some df, sm, true⟩, false⟩) ∧
    (∀ df : Dataset, fallbackQuery df "top 3" = (true, .table (headDs 3 df))) ∧
    (∀ df : Dataset, fallbackQuery df "top 25" = (true, .table (headDs 2 df))) ∧
    (∀ df : Dataset, fallbackQuery df "first rows" = (true, .table (headDs 5 df))) := by
  refine ⟨?_, fun _ => rfl, fun _ => rfl, fun _ => rfl⟩
  intro svc df sm q hno htf
  rw [pq_fallback]
  obtain ⟨h1, h2, h3, h4, h5, h6, h7, h8, h9⟩ := hno
  have hcond : (hasSub "top" (lowerStr q) || hasSub "first" (lowerStr q)) = true := by
    rcases htf with h | h <;> simp [h]
  simp [fallbackQuery, h1, h2, h3, h4, h5, h6, h7, h8, h9, hcond]

theorem top_first_digit_scan_witness :
    noHigherTrigger (lowerStr "show Top 7 rows") ∧
    hasSub "top" (lowerStr "show Top 7 rows") = true ∧
    process_query (fun _ _ => none) ⟨some ⟨[⟨"a", .numeric [some 1, some 2]⟩]⟩, none, true⟩
        "show Top 7 rows" =
      ⟨true, .table (headDs (scanTopN (lowerStr "show Top 7 rows"))
                       ⟨[⟨"a", .numeric [some 1, some 2]⟩]⟩),
       ⟨some ⟨[⟨"a", .numeric [some 1, some 2]⟩]⟩, none, true⟩, false⟩ :=
  ⟨by decide, by decide,
   (top_first_digit_scan).1 (fun _ _ => none) ⟨[⟨"a", .numeric [some 1, some 2]⟩]⟩ none
     "show Top 7 rows" (by decide) (Or.inl (by decide))⟩

/-- C3: a failed live call permanently flips the engine to fallback mode
and retries the same question exactly once through the fallback branches;
from any fallback-mode state neither a query nor a load ever leaves
fallback mode, and no query from a fallback-mode state invokes the
external service. -/
theorem live_failure_permanent_fallback :
    (∀ (svc : ℕ → String → Option QResult) (df : Dataset) (h0 : ℕ) (q : String),
      svc h0 q = none →
      process_query svc ⟨some df, some h0, false⟩ q =
        ⟨(fallbackQuery df q).1, (fallbackQuery df q).2, ⟨some df, some h0, true⟩, true⟩) ∧
    (∀ (svc : ℕ → String → Option QResult) (s : EngineState) (q : String),
      s.fallback = true →
      (process_query svc s q).next.fallback = true ∧
        (process_query svc s q).usedService = false) ∧
    (∀ (parse : Except String Dataset) (bind : Dataset → Option ℕ) (s : EngineState),
      s.fallback = true → ((load_excel parse bind s).2).fallback = true) := by
  refine ⟨?_, ?_, ?_⟩
  · intro svc df h0 q hsvc
    exact pq_live_fail svc df h0 q hsvc
  · intro svc s q h
    obtain ⟨sd, sm, sfb⟩ := s
    simp only at h
    subst h
    cases sd with
    | none => rw [pq_no_df]; exact ⟨rfl, rfl⟩
    | some df => rw [pq_fallback]; exact ⟨rfl, rfl⟩
  · intro parse bind s h
    cases parse with
    | error e => simpa [load_excel] using h
    | ok df => simp [load_excel, h]

theorem live_failure_permanent_fallback_witness :
    ((fun (_ : ℕ) (_ : String) => (none : Option QResult)) 0 "count" = none) ∧
    process_query (fun _ _ => none) ⟨some ⟨[⟨"a", .numeric [some 1, some 2]⟩]⟩, some 0, false⟩
        "count" =
      ⟨(fallbackQuery ⟨[⟨"a", .numeric [some 1, some 2]⟩]⟩ "count").1,
       (fallbackQuery ⟨[⟨"a", .numeric [some 1, some 2]⟩]⟩ "count").2,
       ⟨some ⟨[⟨"a", .numeric [some 1, some 2]⟩]⟩, some 0, true⟩, true⟩ :=
  ⟨rfl, (live_failure_permanent_fallback).1 (fun _ _ => none)
          ⟨[⟨"a", .numeric [some 1, some 2]⟩]⟩ 0 "count" rfl⟩

/-- The fallback path fails exactly here: the question selects the unique
branch (no earlier trigger matched, "unique" occurs) and no column name
occurs in the lower-cased question, so `result` stays `None`. -/
def uniqueBranchFails (df : Dataset) (query : String) : Prop :=
  hasSub "average" query = false ∧ hasSub "mean" query = false ∧
  hasSub "median" query = false ∧ hasSub "sum" query = false ∧
  hasSub "count" query = false ∧ hasSub "describe" query = false ∧
  hasSub "unique" query = true ∧
  df.cols.find? (fun c => hasSub (lowerStr c.name) query) = none

/-- C4 (amended): in fallback mode with a Dataset loaded, `process_query`
fails if and only if the unique branch is selected and no column name
occurs in the question; for every other question the dispatch (with its
final default branch) succeeds, so the "Could not process query in basic
mode" error is reachable, not dead code. -/
theorem fallback_failure_characterization :
    ∀ (svc : ℕ → String → Option QResult) (df : Dataset) (sm : Option ℕ) (q : String),
      ((process_query svc ⟨some df, sm, true⟩ q).ok = false ↔
        uniqueBranchFails df (lowerStr q)) := by
  intro svc df sm q
  rw [pq_fallback]
  simp only [fallbackQuery, uniqueBranchFails]
  cases ha : hasSub "average" (lowerStr q) <;>
  cases hm : hasSub "mean" (lowerStr q) <;>
  cases hmed : hasSub "median" (lowerStr q) <;>
  cases hs : hasSub "sum" (lowerStr q) <;>
  cases hc : hasSub "count" (lowerStr q) <;>
  cases hd : hasSub "describe" (lowerStr q) <;>
  cases hu : hasSub "unique" (lowerStr q) <;>
  simp [ha, hm, hmed, hs, hc, hd, hu] <;>
  first
  | (split_ifs <;> simp)
  | (cases hfind : df.cols.find? (fun c => hasSub (lowerStr c.name) (lowerStr q)) with
     | none =>
       simp only [hfind]
       simp
       intro x hx
       simpa using List.find?_eq_none.mp hfind x hx
     | some c =>
       simp only [hfind]
       simp
       exact ⟨c, List.mem_of_find?_eq_some hfind, by simpa using List.find?_some hfind⟩)

/-- C4 counterexample: on the loaded one-column Dataset named "price", the
fallback-mode question "unique" returns the failure flag together with the
"Could not process query in basic mode" message — the no-branch-matched
error is reachable. -/
theorem unique_no_column_failure :
    (process_query (fun _ _ => none)
        ⟨some ⟨[⟨"price", .numeric [some 1, some 2]⟩]⟩, none, true⟩ "unique").ok = false ∧
    (process_query (fun _ _ => none)
        ⟨some ⟨[⟨"price", .numeric [some 1, some 2]⟩]⟩, none, true⟩ "unique").res =
      .msg basicModeErr := by
  rw [pq_fallback]
  exact ⟨rfl, rfl⟩

/-- C7: `load_excel` fails (with the "Error loading file" message wrapping
the parser's cause) exactly when parsing fails; on a successful parse the
load always returns the Dataset, and a binding failure only flips the
engine to fallback mode — it never fails the load. -/
theorem load_error_iff_parse_error :
    (∀ (e : String) (bind : Dataset → Option ℕ) (s : EngineState),
      load_excel (.error e) bind s = ((false, .msg ("Error loading file: " ++ e)), s)) ∧
    (∀ (df : Dataset) (bind : Dataset → Option ℕ) (s : EngineState),
      (load_excel (.ok df) bind s).1 = (true, .data df)) ∧
    (∀ (df : Dataset) (bind : Dataset → Option ℕ) (s : EngineState),
      s.fallback = false → bind df = none →
      load_excel (.ok df) bind s = ((true, .data df), ⟨some df, s.smart, true⟩)) := by
  refine ⟨fun _ _ _ => rfl, ?_, ?_⟩
  · intro df bind s
    simp only [load_excel]
    cases hfb : s.fallback <;> simp
    cases bind df <;> simp
  · intro df bind s hfb hbind
    simp [load_excel, hfb, hbind]

theorem load_error_iff_parse_error_witness :
    ((⟨none, none, false⟩ : EngineState).fallback = false) ∧
    ((fun (_ : Dataset) => (none : Option ℕ)) ⟨[⟨"a", .numeric [some 1]⟩]⟩ = none) ∧
    load_excel (.ok ⟨[⟨"a", .numeric [some 1]⟩]⟩) (fun _ => none) ⟨none, none, false⟩ =
      ((true, .data ⟨[⟨"a", .numeric [some 1]⟩]⟩),
       ⟨some ⟨[⟨"a", .numeric [some 1]⟩]⟩, none, true⟩) :=
  ⟨rfl, rfl,
   (load_error_iff_parse_error).2.2 ⟨[⟨"a", .numeric [some 1]⟩]⟩ (fun _ => none)
     ⟨none, none, false⟩ rfl rfl⟩

/-- C10: a parse-time load failure is atomic — the engine state afterwards
is exactly the prior state (Dataset, bound handle and mode untouched), and
any query behaves as it would have before the failed load. -/
theorem load_parse_failure_atomic :
    ∀ (e : String) (bind : Dataset → Option ℕ) (s : EngineState)
      (svc : ℕ → String → Option QResult) (q : String),
      (load_excel (.error e) bind s).2 = s ∧
      (load_excel (.error e) bind s).1.1 = false ∧
      process_query svc ((load_excel (.error e) bind s).2) q = process_query svc s q := by
  intro e bind s svc q
  exact ⟨rfl, rfl, rfl⟩

/-- C8 (amended): whenever a Dataset is loaded, `generate_summary` returns
a Summary whose components are the row count, column count, numeric-column
count, total missing-cell count, and the dtype-to-column-count mapping. -/
theorem summary_components :
    (∀ df : Dataset,
      generate_summary (some df) =
        some ⟨nrows df, df.cols.length, (numCols df).length, missingCount df,
              fun t => (df.cols.filter (fun c => dtypeOf c.data == t)).length⟩) ∧
    (∀ df : Dataset,
      (generate_summary (some df)).map Summary.rows = some (nrows df) ∧
      (generate_summary (some df)).map Summary.columns = some df.cols.length ∧
      (generate_summary (some df)).map Summary.numeric_columns = some (numCols df).length ∧
      (generate_summary (some df)).map Summary.missing_values = some (missingCount df)) :=
  ⟨fun _ => rfl, fun _ => ⟨rfl, rfl, rfl, rfl⟩⟩

/-- C8 counterexample: with no Dataset loaded, `generate_summary` returns
`None` rather than any Summary, so "in every engine state it returns a
Summary" fails in the pre-load state. -/
theorem summary_none_before_load : generate_summary none = none := rfl

/-- An unsupported chart-type tag falls through the entire dispatch chain
to the `else: return None` arm. -/
lemma buildFig_unsupported (d : Dataset) (ct : String) (x y c : Option String)
    (ti : String) (colors : Colors) (h : supportedChart ct = false) :
    buildFig d ct x y c ti colors = .ok none := by
  simp [supportedChart] at h
  simp [buildFig, h]

/-- C5: `create_visualization` never propagates an error: it returns no
figure exactly when the dataframe is absent or empty or the dispatch
produced no figure (unsupported tag, or a construction-time exception),
and in every other case it returns a figure; absence of a figure is the
only failure signal its `Option` result can carry. -/
theorem chart_errors_collapse_to_none :
    ∀ (ct : String) (x y c : Option String) (ti sch : String),
      (create_visualization none ct x y c ti sch = none) ∧
      (∀ d : Dataset,
        (create_visualization (some d) ct x y c ti sch = none ↔
          dsEmpty d = true ∨
            ∀ f : Fig, buildFig d ct x y c ti (schemeOf sch) ≠ .ok (some f))) ∧
      (∀ d : Dataset, supportedChart ct = false →
        create_visualization (some d) ct x y c ti sch = none) := by
  intro ct x y c ti sch
  refine ⟨rfl, ?_, ?_⟩
  · intro d
    simp only [create_visualization]
    cases hE : dsEmpty d
    · simp only [Bool.false_eq_true, if_false]
      cases hB : buildFig d ct x y c ti (schemeOf sch) with
      | error e => simp [hB]
      | ok o =>
        cases o with
        | none => simp [hB]
        | some f =>
          simp only [hB]
          constructor
          · intro hfalse
            exact absurd hfalse (by simp)
          · intro hor
            rcases hor with h | h
            · simp at h
            · exact absurd rfl (h f)
    · simp [hE]
  · intro d hns
    simp only [create_visualization]
    cases hE : dsEmpty d
    · simp [buildFig_unsupported d ct x y c ti (schemeOf sch) hns]
    · simp

theorem chart_errors_collapse_to_none_witness :
    (supportedChart "funnel" = false) ∧
    create_visualization (some ⟨[⟨"a", .numeric [some 1]⟩]⟩) "funnel" none none none "" "default" =
      none ∧
    create_visualization none "bar" none none none "" "default" = none :=
  ⟨by decide,
   (chart_errors_collapse_to_none "funnel" none none none "" "default").2.2
     ⟨[⟨"a", .numeric [some 1]⟩]⟩ (by decide),
   (chart_errors_collapse_to_none "bar" none none none "" "default").1⟩

/-- Only the scatter arm of the dispatch chain ever reads the color
column. -/
lemma buildFig_color_irrelevant (d : Dataset) (ct : String) (x y c1 c2 : Option String)
    (ti : String) (colors : Colors) (h : ct ≠ "scatter") :
    buildFig d ct x y c1 ti colors = buildFig d ct x y c2 ti colors := by
  simp only [buildFig]
  split_ifs with h1 h2 h3 <;> try rfl
  exact absurd (eq_of_beq h3) h

/-- C9: for every dataframe, title and color scheme, and every chart type
other than "scatter" (including "bar"), the figure is identical for all
values of the color column — `create_visualization` hands the color column
only to the scatter helper. -/
theorem color_column_ignored_except_scatter :
    ∀ (od : Option Dataset) (ct : String) (x y c1 c2 : Option String) (ti sch : String),
      ct ≠ "scatter" →
      create_visualization od ct x y c1 ti sch = create_visualization od ct x y c2 ti sch := by
  intro od ct x y c1 c2 ti sch h
  cases od with
  | none => rfl
  | some d =>
    simp only [create_visualization]
    rw [buildFig_color_irrelevant d ct x y c1 c2 ti (schemeOf sch) h]

theorem color_column_ignored_except_scatter_witness :
    (("bar" : String) ≠ "scatter") ∧
    create_visualization (some ⟨[⟨"a", .numeric [some 1]⟩, ⟨"b", .text [some "u"]⟩]⟩) "bar"
        (some "a") (some "b") (some "b") "" "categorical" =
      create_visualization (some ⟨[⟨"a", .numeric [some 1]⟩, ⟨"b", .text [some "u"]⟩]⟩) "bar"
        (some "a") (some "b") none "" "categorical" :=
  ⟨by decide,
   color_column_ignored_except_scatter
     (some ⟨[⟨"a", .numeric [some 1]⟩, ⟨"b", .text [some "u"]⟩]⟩) "bar"
     (some "a") (some "b") (some "b") none "" "categorical" (by decide)⟩

/-- Correlating a column with itself pairs each present value with
itself. -/
lemma pairObs_self : ∀ xs : List (Option ℚ), pairObs xs xs = (obsVals xs).map (fun a => (a, a))
  | [] => rfl
  | x :: xs => by
      cases x <;> simp [pairObs, obsVals, List.filterMap_cons, pairObs_self xs]

/-- Swapping the two columns swaps every pairwise-complete observation. -/
lemma pairObs_swap : ∀ xs ys : List (Option ℚ), pairObs ys xs = (pairObs xs ys).map Prod.swap
  | [], ys => by
      cases ys with
      | nil => rfl
      | cons b ys => cases b <;> rfl
  | x :: xs, [] => by cases x <;> rfl
  | x :: xs, y :: ys => by
      cases x <;> cases y <;> simp [pairObs, pairObs_swap xs ys]

/-- Mapping pointwise-equal functions gives equal lists. -/
lemma mapCongr {α β : Type} (f g : α → β) :
    ∀ l : List α, (∀ p ∈ l, f p = g p) → l.map f = l.map g
  | [], _ => rfl
  | a :: l, h => by
      simp only [List.map_cons]
      rw [h a (List.mem_cons_self a l),
          mapCongr f g l (fun p hp => h p (List.mem_cons_of_mem a hp))]

/-- The centred cross-product sum is symmetric in the two components. -/
lemma covP_map_swap (ps : List (ℚ × ℚ)) : covP (ps.map Prod.swap) = covP ps := by
  unfold covP
  simp only [List.map_map]
  have h1 : (Prod.fst ∘ Prod.swap : ℚ × ℚ → ℚ) = Prod.snd := rfl
  have h2 : (Prod.snd ∘ Prod.swap : ℚ × ℚ → ℚ) = Prod.fst := rfl
  rw [h1, h2]
  congr 1
  apply mapCongr
  intro p _
  show (p.2 - meanQ (ps.map Prod.snd)) * (p.1 - meanQ (ps.map Prod.fst)) = _
  ring

/-- A Pearson entry is symmetric in its two columns. -/
lemma corrEntry_symm (xs ys : List (Option ℚ)) : corrEntry xs ys = corrEntry ys xs := by
  unfold corrEntry
  rw [pairObs_swap xs ys]
  simp only [List.map_map]
  have h1 : ((fun p : ℚ × ℚ => (p.1, p.1)) ∘ Prod.swap) = (fun p : ℚ × ℚ => (p.2, p.2)) := rfl
  have h2 : ((fun p : ℚ × ℚ => (p.2, p.2)) ∘ Prod.swap) = (fun p : ℚ × ℚ => (p.1, p.1)) := rfl
  rw [h1, h2, covP_map_swap]
  rw [mul_comm]

/-- A squared-deviation sum is nonnegative. -/
lemma covP_diag_nonneg (l : List ℚ) : 0 ≤ covP (l.map (fun a => (a, a))) := by
  unfold covP
  simp only [List.map_map]
  have h1 : (Prod.fst ∘ (fun a : ℚ => (a, a))) = id := rfl
  have h2 : (Prod.snd ∘ (fun a : ℚ => (a, a))) = id := rfl
  rw [h1, h2]
  apply List.sum_nonneg
  intro x hx
  simp only [List.mem_map] at hx
  obtain ⟨a, _, rfl⟩ := hx
  show 0 ≤ (a - meanQ (l.map id)) * (a - meanQ (l.map id))
  exact mul_self_nonneg _

/-- A diagonal Pearson entry is `1` whenever the column's squared-deviation
sum is nonzero (pandas gives NaN on the zero-variance diagonal). -/
lemma corrEntry_self (xs : List (Option ℚ)) (h : covDiag xs ≠ 0) : corrEntry xs xs = 1 := by
  unfold corrEntry
  rw [pairObs_self]
  simp only [List.map_map]
  have h1 : ((fun p : ℚ × ℚ => (p.1, p.1)) ∘ (fun a : ℚ => (a, a))) = (fun a : ℚ => (a, a)) := rfl
  have h2 : ((fun p : ℚ × ℚ => (p.2, p.2)) ∘ (fun a : ℚ => (a, a))) = (fun a : ℚ => (a, a)) := rfl
  rw [h1, h2]
  have hv : (0 : ℚ) ≤ covP ((obsVals xs).map (fun a => (a, a))) := covP_diag_nonneg _
  have hvR : (0 : ℝ) ≤ ((covP ((obsVals xs).map (fun a => (a, a))) : ℚ) : ℝ) := by
    exact_mod_cast hv
  rw [Real.sqrt_mul_self hvR]
  have hne : ((covP ((obsVals xs).map (fun a => (a, a))) : ℚ) : ℝ) ≠ 0 := by
    simpa [covDiag] using (Rat.cast_ne_zero (α := ℝ)).mpr h
  exact div_self hne

/-- `df.corr()` is symmetric (with the NaN-as-0 convention for undefined
entries). -/
lemma corrMatrix_symmQ (df : Dataset) (i j : ℕ) :
    entryAt (corrMatrix df) i j = entryAt (corrMatrix df) j i := by
  unfold entryAt corrMatrix
  cases hi : (numCols df)[i]? <;> cases hj : (numCols df)[j]? <;>
    simp [List.getElem?_map, hi, hj, corrEntry_symm]

/-- Diagonal entries of `df.corr()` are `1` for columns of nonzero
squared-deviation sum. -/
lemma corrMatrix_diagQ (df : Dataset) (i : ℕ) (c : String × List (Option ℚ))
    (hc : (numCols df)[i]? = some c) (hvar : covDiag c.2 ≠ 0) :
    entryAt (corrMatrix df) i i = 1 := by
  unfold entryAt corrMatrix
  simp [List.getElem?_map, hc, corrEntry_self c.2 hvar]

/-- With either column selection omitted, the heatmap path returns the
styled correlation-matrix figure. -/
lemma heatmap_corr_figure (df : Dataset) (x y c : Option String) (ti sch : String)
    (hne : dsEmpty df = false) (hxy : x = none ∨ y = none) :
    create_visualization (some df) "heatmap" x y c ti sch =
      some ⟨.heatmap (corrMatrix df) ((corrLabels df).map Val.s) ((corrLabels df).map Val.s)
              "RdBu" (if ti = "" then "Correlation Matrix" else ti), some commonStyles⟩ := by
  simp only [create_visualization, hne, Bool.false_eq_true, if_false]
  rcases hxy with h | h <;> subst h
  · simp [buildFig, _create_heatmap, _apply_common_styling, Except.map]
  · cases x <;> simp [buildFig, _create_heatmap, _apply_common_styling, Except.map]

/-- With both columns given (the grouping column present and the values
column numeric), the heatmap path returns the styled pivot-table figure. -/
lemma heatmap_pivot_figure (df : Dataset) (xc yc : String) (cx cy : Column)
    (yv : List (Option ℚ)) (c : Option String) (ti sch : String)
    (hne : dsEmpty df = false) (hx : findCol df xc = some cx)
    (hy : findCol df yc = some cy) (hyd : cy.data = .numeric yv) :
    create_visualization (some df) "heatmap" (some xc) (some yc) c ti sch =
      some ⟨.heatmap (pivotZ (cellsOf cx.data) yv) [Val.s yc] (pivotKeys (cellsOf cx.data))
              "RdBu" ti, some commonStyles⟩ := by
  simp [create_visualization, hne, buildFig, _create_heatmap, hx, hy, hyd,
        _apply_common_styling, Except.map]

/-- A two-numeric-column Dataset with nonzero variances, used as the
concrete heatmap witness. -/
def dfPair : Dataset :=
  ⟨[⟨"a", .numeric [some 1, some 2]⟩, ⟨"b", .numeric [some 2, some 4]⟩]⟩

/-- A Dataset whose first numeric column is constant (zero variance),
alongside a second genuine numeric column. -/
def dfConstCol : Dataset :=
  ⟨[⟨"a", .numeric [some 1, some 1]⟩, ⟨"b", .numeric [some 1, some 2]⟩]⟩

/-- C6 (amended): with either column selection omitted, the heatmap figure
carries exactly `df.corr()` over the numeric columns; that matrix is
symmetric, and its diagonal entries are `1.0` for every numeric column of
nonzero variance (a zero-variance column's diagonal entry is undefined —
NaN in pandas, `0` in the model); with both columns given the figure
renders the pivot table of `mean(y_column)` grouped by `x_column`. -/
theorem heatmap_correlation_and_pivot :
    (∀ (df : Dataset) (x y c : Option String) (ti sch : String),
      dsEmpty df = false → (x = none ∨ y = none) →
      create_visualization (some df) "heatmap" x y c ti sch =
        some ⟨.heatmap (corrMatrix df) ((corrLabels df).map Val.s) ((corrLabels df).map Val.s)
                "RdBu" (if ti = "" then "Correlation Matrix" else ti), some commonStyles⟩) ∧
    (∀ (df : Dataset) (i j : ℕ), entryAt (corrMatrix df) i j = entryAt (corrMatrix df) j i) ∧
    (∀ (df : Dataset) (i : ℕ) (c : String × List (Option ℚ)),
      (numCols df)[i]? = some c → covDiag c.2 ≠ 0 → entryAt (corrMatrix df) i i = 1) ∧
    (∀ (df : Dataset) (xc yc : String) (cx cy : Column) (yv : List (Option ℚ))
        (c : Option String) (ti sch : String),
      dsEmpty df = false → findCol df xc = some cx → findCol df yc = some cy →
      cy.data = .numeric yv →
      create_visualization (some df) "heatmap" (some xc) (some yc) c ti sch =
        some ⟨.heatmap (pivotZ (cellsOf cx.data) yv) [Val.s yc] (pivotKeys (cellsOf cx.data))
                "RdBu" ti, some commonStyles⟩) :=
  ⟨heatmap_corr_figure, corrMatrix_symmQ, corrMatrix_diagQ, heatmap_pivot_figure⟩

theorem heatmap_correlation_and_pivot_witness :
    (dsEmpty dfPair = false) ∧ (covDiag [some 1, some 2] ≠ 0) ∧
    create_visualization (some dfPair) "heatmap" none none none "" "default" =
      some ⟨.heatmap (corrMatrix dfPair) ((corrLabels dfPair).map Val.s)
              ((corrLabels dfPair).map Val.s) "RdBu"
              (if "" = "" then "Correlation Matrix" else ""), some commonStyles⟩ ∧
    entryAt (corrMatrix dfPair) 0 0 = 1 ∧
    create_visualization (some dfPair) "heatmap" (some "a") (some "b") none "" "default" =
      some ⟨.heatmap (pivotZ (cellsOf (ColData.numeric [some 1, some 2])) [some 2, some 4])
              [Val.s "b"] (pivotKeys (cellsOf (ColData.numeric [some 1, some 2])))
              "RdBu" "", some commonStyles⟩ :=
  ⟨by decide, by norm_num [covDiag, covP, obsVals, meanQ, List.filterMap],
   (heatmap_correlation_and_pivot).1 dfPair none none none "" "default" (by decide) (Or.inl rfl),
   (heatmap_correlation_and_pivot).2.2.1 dfPair 0 ("a", [some 1, some 2]) (by decide)
     (by norm_num [covDiag, covP, obsVals, meanQ, List.filterMap]),
   (heatmap_correlation_and_pivot).2.2.2 dfPair "a" "b" ⟨"a", .numeric [some 1, some 2]⟩
     ⟨"b", .numeric [some 2, some 4]⟩ [some 2, some 4] none "" "default"
     (by decide) (by decide) (by decide) rfl⟩

/-- C6 counterexample: on a Dataset with two numeric columns whose first
column is constant, the correlation-matrix heatmap is still produced but
its first diagonal entry is not `1.0` (pandas leaves it NaN; the model
renders the undefined value as `0`), so "diagonal entries 1.0" fails as
stated. -/
theorem heatmap_constant_column_diagonal_not_one :
    create_visualization (some dfConstCol) "heatmap" none none none "" "default" =
      some ⟨.heatmap (corrMatrix dfConstCol) ((corrLabels dfConstCol).map Val.s)
              ((corrLabels dfConstCol).map Val.s) "RdBu"
              (if "" = "" then "Correlation Matrix" else ""), some commonStyles⟩ ∧
    entryAt (corrMatrix dfConstCol) 0 0 = 0 ∧
    entryAt (corrMatrix dfConstCol) 0 0 ≠ 1 := by
  have hcov : covP (pairObs [some 1, some 1] [some 1, some 1]) = 0 := by
    norm_num [covP, pairObs, meanQ]
  have hentry : entryAt (corrMatrix dfConstCol) 0 0 =
      corrEntry [some 1, some 1] [some 1, some 1] := by
    unfold entryAt corrMatrix
    norm_num [numCols, dfConstCol, List.filterMap]
  have hzero : corrEntry [some 1, some 1] [some 1, some 1] = 0 := by
    unfold corrEntry
    rw [hcov]
    norm_num
  refine ⟨heatmap_corr_figure dfConstCol none none none "" "default" (by decide) (Or.inl rfl),
          ?_, ?_⟩
  · rw [hentry, hzero]
  · rw [hentry, hzero]
    norm_num
